import Mathlib

/-!
Shallow embedding of the tmux-claude pane status state machine
(`scripts/claude_tmux_hooks.py`, `scripts/pane_tracker.py`,
`scripts/tmux_integration.py`).

Python strings are sequences of Unicode code points; we model them as
`List Char` so that Python slicing (`s[n:]`), `len`, `startswith` and
`split` correspond to `List.drop`, `List.length`, `List.isPrefixOf` and
`List.splitOn`.

The external tmux state (window names, the `automatic-rename` option) and
the on-disk state (per-pane JSON state files, the tracker file) are
gathered in a `World`.  Each `subprocess` call to tmux can fail with
`CalledProcessError`; an `Oracle` of booleans says which calls succeed
during one invocation.  All Python exceptions in the modelled code are
caught at the call site (the functions return `None`/`False` instead), so
the embedding is total.
-/

namespace TmuxClaude

/-- A Python string: a sequence of Unicode code points. -/
abbrev PyStr := List Char

/-- The emoji list `['✅', '📢', '❓', '🔄']` that the hooks try to strip,
in the order the Python `for` loop checks them. -/
def statusEmojis : List Char := ['✅', '📢', '❓', '🔄']

/-- The contents of one `.pane_state_<id>.json` file, as written by
`save_pane_state`. -/
structure PaneState where
  pane_id : PyStr
  original_name : PyStr
  status : PyStr
  timestamp : Nat
  auto_rename_was_on : Bool
deriving Repr, DecidableEq

/-- Raw bytes of a persisted state file: either valid JSON for a
`PaneState`, or data that fails `json.load`. -/
inductive FileContent where
  | corrupt
  | valid (s : PaneState)
deriving Repr, DecidableEq

/-- A state file on disk: its `st_mtime` (used by `cleanup_old_states`)
and its contents.  `save_pane_state` writes the file at time `now`, so the
mtime equals the `timestamp` field it stores. -/
structure StateFileInfo where
  mtime : Nat
  content : FileContent
deriving Repr, DecidableEq

/-- One entry of the `.pane_tracker.json` dict. -/
structure TrackedInfo where
  session_name : PyStr
  last_activity : Nat
  status : PyStr
deriving Repr, DecidableEq

/-- The `.pane_tracker.json` file: missing, unparsable, or a dict
(modelled as an association list in dict iteration order). -/
inductive TrackerFileContent where
  | absent
  | corrupt
  | valid (panes : List (PyStr × TrackedInfo))
deriving Repr, DecidableEq

/-- The shared state visible to the scripts: tmux window names and
`automatic-rename` options per pane id, the persisted state files (keyed
by the pane id with `%` removed, as in the `.pane_state_{id.replace
\x7b'%','')}.json` filename), the tracker file, and the current time. -/
structure World where
  paneName : PyStr → PyStr
  autoRename : PyStr → Bool
  stateFiles : List (PyStr × StateFileInfo)
  trackerFile : TrackerFileContent
  now : Nat

/-- Which tmux / filesystem calls succeed during one invocation. -/
structure Oracle where
  getNameOk : Bool
  setAutoOk : Bool
  renameOk : Bool
  getAutoOk : Bool
  writeOk : Bool
  deleteOk : Bool
deriving Repr, DecidableEq

/-- Every call succeeds. -/
def happyOracle : Oracle := ⟨true, true, true, true, true, true⟩

/-- `pane_id.replace('%', '')`: the key under which a pane's state file is
stored. -/
def fileKey (pane_id : PyStr) : PyStr := pane_id.filter (fun c => c != '%')

/-- Overwrite (or create) the state file stored under key `k`. -/
def setEntry (files : List (PyStr × StateFileInfo)) (k : PyStr) (v : StateFileInfo) :
    List (PyStr × StateFileInfo) :=
  (k, v) :: files.filter (fun kv => kv.1 != k)

/-- Unlink the state file stored under key `k`. -/
def removeEntry (files : List (PyStr × StateFileInfo)) (k : PyStr) :
    List (PyStr × StateFileInfo) :=
  files.filter (fun kv => kv.1 != k)

/-- `get_window_auto_rename_status`: on success, reports whether
`automatic-rename` is on (the Python code checks `'on' in output` on the
`show-options` output, which is `"automatic-rename on"` or
`"automatic-rename off"`); on `CalledProcessError` it returns `False`
("assuming off"). -/
def get_window_auto_rename_status (w : World) (pane_id : PyStr) (ok : Bool) : Bool :=
  if ok then w.autoRename pane_id else false

/-- `set_window_auto_rename`: `tmux set-option automatic-rename on|off`;
returns `True` on success, `False` on `CalledProcessError` (leaving the
option unchanged). -/
def set_window_auto_rename (w : World) (pane_id : PyStr) (ok enabled : Bool) :
    World × Bool :=
  if ok then
    ({w with autoRename := fun q => if q = pane_id then enabled else w.autoRename q}, true)
  else (w, false)

/-- `set_pane_name`: first disables automatic-rename (ignoring whether
that succeeded), then `tmux rename-window`; returns `False` if the rename
raised. -/
def set_pane_name (w : World) (o : Oracle) (pane_id name : PyStr) : World × Bool :=
  let w1 := (set_window_auto_rename w pane_id o.setAutoOk false).1
  if o.renameOk then
    ({w1 with paneName := fun q => if q = pane_id then name else w1.paneName q}, true)
  else (w1, false)

/-- `save_pane_state`: reads the *current* automatic-rename status, then
writes the state file (an `IOError` leaves the store unchanged). -/
def save_pane_state (w : World) (o : Oracle) (pane_id original_name status : PyStr) :
    World :=
  let auto_rename_was_on := get_window_auto_rename_status w pane_id o.getAutoOk
  let st : PaneState :=
    ⟨pane_id, original_name, status, w.now, auto_rename_was_on⟩
  if o.writeOk then
    {w with stateFiles := setEntry w.stateFiles (fileKey pane_id) ⟨w.now, .valid st⟩}
  else w

/-- `load_pane_state`: returns the parsed record, or `None` when the file
is missing or fails `json.load` (`JSONDecodeError`/`IOError` are caught
and logged). -/
def load_pane_state (w : World) (pane_id : PyStr) : Option PaneState :=
  match w.stateFiles.lookup (fileKey pane_id) with
  | some info =>
    match info.content with
    | .valid s => some s
    | .corrupt => none
  | none => none

/-- `cleanup_pane_state`: unlink the state file if it exists (an `OSError`
from `unlink` is caught, leaving the file in place). -/
def cleanup_pane_state (w : World) (pane_id : PyStr) (ok : Bool) : World :=
  if (w.stateFiles.lookup (fileKey pane_id)).isSome && ok then
    {w with stateFiles := removeEntry w.stateFiles (fileKey pane_id)}
  else w

/-- The inline loop shared by the three hook handlers: remove at most one
leading `emoji + " "` marker from the name, first match wins. -/
def stripEmoji (name : PyStr) : PyStr :=
  match statusEmojis.find? (fun e => ([e, ' ']).isPrefixOf name) with
  | some e => name.drop ([e, ' ']).length
  | none => name

/-- `True` when the name starts with some recognized `emoji + " "`
marker. -/
def hasEmoji (name : PyStr) : Bool :=
  statusEmojis.any (fun e => ([e, ' ']).isPrefixOf name)

/-- The original name the hooks compute: the saved one if a record is
readable, else the current displayed name with one marker stripped. -/
def originalNameOf (w : World) (pane_id : PyStr) : PyStr :=
  match load_pane_state w pane_id with
  | some st => st.original_name
  | none => stripEmoji (w.paneName pane_id)

/-- `handle_stop_hook`, given the resolved pane id (`get_claude_pane_id`;
`if not pane_id` treats `None`/empty as failure).  Aborts (leaving the
world unchanged) when the pane id or the current name is unavailable or
falsy; otherwise recovers the original name from the saved state (or by
stripping one emoji marker), renames the window to `"✅ " + original`, and
saves the state only if the rename succeeded. -/
def handle_stop_hook (w : World) (o : Oracle) (pane_id : PyStr) : World :=
  if pane_id = [] then w
  else if !o.getNameOk then w
  else
    let current_name := w.paneName pane_id
    if current_name = [] then w
    else
      let original_name :=
        match load_pane_state w pane_id with
        | some st => st.original_name
        | none => stripEmoji current_name
      let r := set_pane_name w o pane_id ('✅' :: ' ' :: original_name)
      if r.2 then save_pane_state r.1 o pane_id original_name ("stop".data)
      else r.1

/-- `handle_notification_hook`: identical to `handle_stop_hook` except
for the `"📢"` marker and the `'notification'` status string. -/
def handle_notification_hook (w : World) (o : Oracle) (pane_id : PyStr) : World :=
  if pane_id = [] then w
  else if !o.getNameOk then w
  else
    let current_name := w.paneName pane_id
    if current_name = [] then w
    else
      let original_name :=
        match load_pane_state w pane_id with
        | some st => st.original_name
        | none => stripEmoji current_name
      let r := set_pane_name w o pane_id ('📢' :: ' ' :: original_name)
      if r.2 then save_pane_state r.1 o pane_id original_name ("notification".data)
      else r.1

/-- `restore_pane_name`: if a state file is present and parses, rename the
window back to `original_name` (directly via `rename-window`, not through
`set_pane_name`), restore the saved automatic-rename value, delete the
state file, and return `True`; with no (readable) state, or when the
rename raised, return `False` without touching anything else. -/
def restore_pane_name (w : World) (o : Oracle) (pane_id : PyStr) : World × Bool :=
  match load_pane_state w pane_id with
  | some st =>
    if o.renameOk then
      let w1 := {w with paneName := fun q => if q = pane_id then st.original_name
                                             else w.paneName q}
      let w2 := (set_window_auto_rename w1 pane_id o.setAutoOk st.auto_rename_was_on).1
      (cleanup_pane_state w2 pane_id o.deleteOk, true)
    else (w, false)
  | none => (w, false)

/-! ## Liveness reconciler (`pane_tracker.py`, `tmux_integration.py`) -/

/-- One parsed line of `tmux list-panes -a -F
'#\x7bsession_name}:#\x7bwindow_index}.#\x7bpane_index}:#\x7bpane_id}:#\x7bpane_title}:#\x7bpane_pid}'`. -/
structure PaneInfo where
  session_window_pane : PyStr
  pane_id : PyStr
  title : PyStr
  pid : PyStr
deriving Repr, DecidableEq

/-- Python `str.strip()` (whitespace from both ends; only its emptiness is
ever used). -/
def pyStrip (s : PyStr) : PyStr :=
  ((s.dropWhile Char.isWhitespace).reverse.dropWhile Char.isWhitespace).reverse

/-- `TmuxIntegration.get_all_panes`: `run_tmux_command` yields `None` on
`CalledProcessError` (modelled by the `Option` argument, already
`strip()`ed); a falsy result (failure or empty output) produces `[]`,
otherwise each nonblank line with at least 5 `':'`-separated parts becomes
a pane, with `parts[1]` as the pane id, `':'.join(parts[2:-1])` as the
title and `parts[-1]` as the pid. -/
def get_all_panes (output : Option PyStr) : List PaneInfo :=
  match output with
  | none => []
  | some out =>
    if out = [] then []
    else
      (out.splitOn '\n').filterMap (fun line =>
        if pyStrip line = [] then none
        else
          let parts := line.splitOn ':'
          if 5 ≤ parts.length then
            some ⟨parts.getD 0 [], parts.getD 1 [],
                  List.intercalate [':'] ((parts.drop 2).dropLast),
                  parts.getLastD []⟩
          else none)

/-- `PaneTracker.load_tracked_panes`: `\x7b}` when the tracker file is
missing or fails to parse. -/
def load_tracked_panes (w : World) : List (PyStr × TrackedInfo) :=
  match w.trackerFile with
  | .valid panes => panes
  | _ => []

/-- `PaneTracker.save_tracked_panes` (an `IOError` is swallowed; modelled
as succeeding). -/
def save_tracked_panes (w : World) (panes : List (PyStr × TrackedInfo)) : World :=
  {w with trackerFile := .valid panes}

/-- `PaneTracker.cleanup_dead_panes`: drop every tracked pane whose id is
not among the live pane ids, unlinking its state file as well; the tracker
file is rewritten only when at least one dead pane was found. -/
def cleanup_dead_panes (w : World) (output : Option PyStr) : World :=
  let tracked_panes := load_tracked_panes w
  let current_panes := (get_all_panes output).map (fun p => p.pane_id)
  let dead_panes :=
    (tracked_panes.filter (fun kv => !current_panes.contains kv.1)).map (fun kv => kv.1)
  if dead_panes = [] then w
  else
    let files :=
      w.stateFiles.filter (fun kv => !(dead_panes.map fileKey).contains kv.1)
    save_tracked_panes {w with stateFiles := files}
      (tracked_panes.filter (fun kv => current_panes.contains kv.1))

/-- `PaneTracker.cleanup_old_states`: unlink every state file whose
`st_mtime` is more than `max_age = 3600` seconds old. -/
def cleanup_old_states (w : World) : World :=
  {w with stateFiles :=
    w.stateFiles.filter (fun kv => !(decide (3600 < w.now - kv.2.mtime)))}

/-- One iteration of `PaneTracker._monitor_loop`: dead-pane cleanup, then
old-state cleanup. -/
def monitor_tick (w : World) (output : Option PyStr) : World :=
  cleanup_old_states (cleanup_dead_panes w output)

/-! ## Concrete scenarios used as witnesses and counterexamples -/

/-- A pane displaying `"build"` with auto-naming on, empty store. -/
def w0 : World :=
  { paneName := fun _ => "build".data
    autoRename := fun _ => true
    stateFiles := []
    trackerFile := .valid []
    now := 0 }

/-- The pane id `"%1"`. -/
def pid0 : PyStr := "%1".data

/-- A pane whose displayed name already carries the stopped marker. -/
def w2 : World :=
  { paneName := fun _ => "✅ a".data
    autoRename := fun _ => false
    stateFiles := []
    trackerFile := .valid []
    now := 0 }

/-- A tracker entry for session `"s"`. -/
def infoD : TrackedInfo := ⟨"s".data, 0, "active".data⟩

/-- A saved record for pane `"%1"` with true name `"build"`. -/
def stD : PaneState := ⟨"%1".data, "build".data, "stop".data, 0, false⟩

/-- A world holding a state file for pane `"%1"` but no tracker entry. -/
def wD : World :=
  { paneName := fun _ => "build".data
    autoRename := fun _ => false
    stateFiles := [("1".data, ⟨0, .valid stD⟩)]
    trackerFile := .valid []
    now := 0 }

/-- `wD` with pane `"%1"` additionally present in the tracker file. -/
def wT : World := { wD with trackerFile := .valid [("%1".data, infoD)] }

/-- `wT` at time 5000, making the state file of `"%1"` older than 3600. -/
def wS : World := { wT with now := 5000 }

/-- A `list-panes` output naming a single live pane `"%9"`. -/
def liveOut : PyStr := "s:0.0:%9:t:1".data

/-- A world whose state file for pane `"%1"` is unparsable. -/
def wC : World :=
  { paneName := fun _ => "build".data
    autoRename := fun _ => true
    stateFiles := [("1".data, ⟨0, .corrupt⟩)]
    trackerFile := .valid []
    now := 0 }

/-- The oracle where `get_pane_name` fails. -/
def oGetFail : Oracle := ⟨false, true, true, true, true, true⟩

/-- The oracle where only `rename-window` fails. -/
def oRenameFail : Oracle := ⟨true, true, false, true, true, true⟩

/-! ## Helper lemmas on association lists -/

theorem lookup_filter_keyPred_eq_none {α β : Type} [BEq α] [LawfulBEq α]
    (f : α → Bool) (k : α) (l : List (α × β)) (hf : f k = false) :
    (l.filter (fun kv => f kv.1)).lookup k = none := by
  rw [List.lookup_eq_none_iff]
  intro p hp
  rcases List.mem_filter.1 hp with ⟨-, hpf⟩
  refine bne_iff_ne.2 fun hk => ?_
  rw [hk, hpf] at hf
  exact absurd hf (by decide)

theorem lookup_filter_eq_none_of_eq_none {α β : Type} [BEq α] [LawfulBEq α]
    (p : α × β → Bool) (k : α) (l : List (α × β)) (h : l.lookup k = none) :
    (l.filter p).lookup k = none := by
  rw [List.lookup_eq_none_iff] at h ⊢
  exact fun q hq => h q (List.mem_of_mem_filter hq)

theorem mem_of_lookup_eq_some {α β : Type} [BEq α] [LawfulBEq α]
    {l : List (α × β)} {k : α} {v : β} (h : l.lookup k = some v) : (k, v) ∈ l := by
  rcases List.lookup_eq_some_iff.1 h with ⟨l₁, l₂, rfl, -⟩
  exact List.mem_append_right _ (List.mem_cons_self _ _)

theorem value_eq_of_mem_nodup_keys {α β : Type} {l : List (α × β)}
    (hn : (l.map Prod.fst).Nodup) {k : α} {v v' : β}
    (h1 : (k, v) ∈ l) (h2 : (k, v') ∈ l) : v = v' := by
  induction l with
  | nil => cases h1
  | cons a l ih =>
    simp only [List.map_cons, List.nodup_cons] at hn
    obtain ⟨ha, hl⟩ := hn
    rcases List.mem_cons.1 h1 with h1 | h1 <;> rcases List.mem_cons.1 h2 with h2 | h2
    · rw [← h2] at h1; exact congrArg Prod.snd h1
    · rw [← h1] at ha; exact absurd (List.mem_map_of_mem Prod.fst h2) ha
    · rw [← h2] at ha; exact absurd (List.mem_map_of_mem Prod.fst h1) ha
    · exact ih hl h1 h2

theorem lookup_eq_none_of_forall_ne {α β : Type} [BEq α] [LawfulBEq α]
    {l : List (α × β)} {k : α} (h : ∀ v, (k, v) ∉ l) : l.lookup k = none := by
  rw [List.lookup_eq_none_iff]
  intro p hp
  refine bne_iff_ne.2 fun hk => h p.2 ?_
  rwa [hk, Prod.mk.eta]

theorem lookup_setEntry_self (files : List (PyStr × StateFileInfo)) (k : PyStr)
    (v : StateFileInfo) : (setEntry files k v).lookup k = some v := by
  simp [setEntry]

theorem lookup_removeEntry_self (files : List (PyStr × StateFileInfo)) (k : PyStr) :
    (removeEntry files k).lookup k = none :=
  lookup_filter_keyPred_eq_none (fun x => x != k) k files (by simp)

theorem stripEmoji_check (x : PyStr) : stripEmoji ('✅' :: ' ' :: x) = x := by
  simp [stripEmoji, statusEmojis, List.find?, List.isPrefixOf_cons₂]

theorem stripEmoji_speaker (x : PyStr) : stripEmoji ('📢' :: ' ' :: x) = x := by
  simp [stripEmoji, statusEmojis, List.find?, List.isPrefixOf_cons₂]

theorem stripEmoji_of_hasEmoji_eq_false {x : PyStr} (h : hasEmoji x = false) :
    stripEmoji x = x := by
  have hf : statusEmojis.find? (fun e => ([e, ' ']).isPrefixOf x) = none := by
    rw [List.find?_eq_none]
    intro e he
    simp only [hasEmoji, List.any_eq_false] at h
    simpa using h e he
  simp [stripEmoji, hf]

/-- Unfolding `handle_stop_hook` on the happy path. -/
theorem handle_stop_hook_happy_eq (w : World) (pane_id : PyStr) (hpid : pane_id ≠ [])
    (hname : w.paneName pane_id ≠ []) :
    handle_stop_hook w happyOracle pane_id =
      { paneName := fun q => if q = pane_id
            then '✅' :: ' ' :: originalNameOf w pane_id else w.paneName q
        autoRename := fun q => if q = pane_id then false else w.autoRename q
        stateFiles := setEntry w.stateFiles (fileKey pane_id)
          ⟨w.now, .valid ⟨pane_id, originalNameOf w pane_id, "stop".data, w.now, false⟩⟩
        trackerFile := w.trackerFile
        now := w.now } := by
  simp only [handle_stop_hook, happyOracle, Bool.not_true, Bool.false_eq_true, if_false,
    if_neg hpid, if_neg hname, set_pane_name, set_window_auto_rename, if_true,
    save_pane_state, get_window_auto_rename_status, originalNameOf]

/-- Unfolding `handle_notification_hook` on the happy path. -/
theorem handle_notification_hook_happy_eq (w : World) (pane_id : PyStr)
    (hpid : pane_id ≠ []) (hname : w.paneName pane_id ≠ []) :
    handle_notification_hook w happyOracle pane_id =
      { paneName := fun q => if q = pane_id
            then '📢' :: ' ' :: originalNameOf w pane_id else w.paneName q
        autoRename := fun q => if q = pane_id then false else w.autoRename q
        stateFiles := setEntry w.stateFiles (fileKey pane_id)
          ⟨w.now, .valid ⟨pane_id, originalNameOf w pane_id, "notification".data, w.now, false⟩⟩
        trackerFile := w.trackerFile
        now := w.now } := by
  simp only [handle_notification_hook, happyOracle, Bool.not_true, Bool.false_eq_true, if_false,
    if_neg hpid, if_neg hname, set_pane_name, set_window_auto_rename, if_true,
    save_pane_state, get_window_auto_rename_status, originalNameOf]

/-! ## Claim theorems -/

/-- C1: the first overlay is supposed to snapshot the pane's auto-naming
toggle *before* it is forced off, and `restore` is supposed to bring the
toggle back to that pre-overlay value.  The code instead snapshots it in
`save_pane_state` *after* `set_pane_name` already forced it off: with
auto-naming initially on and every tmux call succeeding, the record stores
`auto_rename_was_on = false`, not `true`. -/
theorem C1_snapshot_taken_after_force_off :
    w0.autoRename pid0 = true ∧
    load_pane_state (handle_stop_hook w0 happyOracle pid0) pid0 =
      some ⟨pid0, "build".data, "stop".data, 0, false⟩ := by
  constructor
  · rfl
  · decide

/-- C2 counterexample: starting from the displayed name `"✅ a"` (no
record), `apply(stopped)` then `apply(notified)` stores
`true_name = "a"`, which differs from the name `"✅ a"` before either
call, refuting the claim for arbitrary starting displayed names. -/
theorem C2_counterexample :
    w2.paneName pid0 = "✅ a".data ∧
    (load_pane_state
        (handle_notification_hook (handle_stop_hook w2 happyOracle pid0) happyOracle pid0)
        pid0).map PaneState.original_name = some "a".data ∧
    "a".data ≠ "✅ a".data := by
  refine ⟨rfl, by decide, by decide⟩

/-- C4 counterexample: a state file for pane `"%1"` with no tracker entry
survives a full Reconciler tick even though `"%1"` is absent from the live
enumeration — `cleanup_dead_panes` only inspects tracked panes. -/
theorem C4_counterexample :
    ((get_all_panes (some liveOut)).map PaneInfo.pane_id).contains "%1".data = false ∧
    (monitor_tick wD (some liveOut)).stateFiles.lookup (fileKey pid0) =
      some ⟨0, .valid stD⟩ := by
  constructor
  · decide
  · decide

/-- C6 counterexample: with auto-naming initially on and only the
`rename-window` call failing, `handle_stop_hook` aborts, yet the pane's
auto-naming toggle has already been forced off — state *was* mutated. -/
theorem C6_counterexample :
    w0.autoRename pid0 = true ∧
    (handle_stop_hook w0 oRenameFail pid0).autoRename pid0 = false := by
  exact ⟨rfl, by decide⟩

/-- C7 counterexample: for the pane named `"build"` with auto-naming on
and no record, after `apply(stopped)` and `restore` the displayed name is
back to `"build"` but the auto-naming toggle ends up off — the pane is
*not* restored to its full pre-overlay state. -/
theorem C7_counterexample :
    w0.autoRename pid0 = true ∧
    (restore_pane_name (handle_stop_hook w0 happyOracle pid0) happyOracle pid0).1.paneName
        pid0 = "build".data ∧
    (restore_pane_name (handle_stop_hook w0 happyOracle pid0) happyOracle pid0).1.autoRename
        pid0 = false := by
  refine ⟨rfl, by decide, by decide⟩

/-- When the rename fails, `set_pane_name` reports failure and leaves
everything except possibly the auto-rename toggle unchanged. -/
theorem set_pane_name_renameFail (w : World) (o : Oracle) (pane_id name : PyStr)
    (h : o.renameOk = false) :
    (set_pane_name w o pane_id name).2 = false ∧
    (set_pane_name w o pane_id name).1.stateFiles = w.stateFiles ∧
    (set_pane_name w o pane_id name).1.paneName = w.paneName := by
  cases hso : o.setAutoOk <;> simp [set_pane_name, set_window_auto_rename, h, hso]

/-- When the rename fails but the preceding force-off succeeded, the
toggle is left off. -/
theorem set_pane_name_renameFail_auto (w : World) (o : Oracle) (pane_id name : PyStr)
    (h : o.renameOk = false) (hs : o.setAutoOk = true) :
    (set_pane_name w o pane_id name).1.autoRename pane_id = false := by
  simp [set_pane_name, set_window_auto_rename, h, hs]

/-- C5: if the `set_name` call (the `rename-window` inside
`set_pane_name`) fails during an apply, no record is written and the State
Store is exactly what it was before the call, for both the stop and the
notification hooks. -/
theorem C5_set_name_failure_preserves_store (w : World) (o : Oracle) (pane_id : PyStr)
    (h : o.renameOk = false) :
    (handle_stop_hook w o pane_id).stateFiles = w.stateFiles ∧
    (handle_notification_hook w o pane_id).stateFiles = w.stateFiles := by
  have h2 : ∀ name, (set_pane_name w o pane_id name).2 = false :=
    fun nm => (set_pane_name_renameFail w o pane_id nm h).1
  constructor
  · simp only [handle_stop_hook, h2, Bool.false_eq_true, if_false]
    split
    · rfl
    split
    · rfl
    split
    · rfl
    exact (set_pane_name_renameFail w o pane_id _ h).2.1
  · simp only [handle_notification_hook, h2, Bool.false_eq_true, if_false]
    split
    · rfl
    split
    · rfl
    split
    · rfl
    exact (set_pane_name_renameFail w o pane_id _ h).2.1

/-- Witness for C5 at a concrete world. -/
theorem C5_witness :
    oRenameFail.renameOk = false ∧
    (handle_stop_hook w0 oRenameFail pid0).stateFiles = w0.stateFiles :=
  ⟨rfl, (C5_set_name_failure_preserves_store w0 oRenameFail pid0 rfl).1⟩

/-- C6 (amended): when the initial `get_name` read fails, the apply is
aborted with no state mutated at all; but when the `rename-window` call is
what fails, only the State Store and the displayed names are untouched —
the pane's auto-naming toggle has already been forced off by then (the
code disables it before attempting the rename). -/
theorem C6_accessor_failure_frame (w : World) (o : Oracle) (pane_id : PyStr) :
    (o.getNameOk = false → handle_stop_hook w o pane_id = w) ∧
    (o.renameOk = false →
      (handle_stop_hook w o pane_id).stateFiles = w.stateFiles ∧
      (handle_stop_hook w o pane_id).paneName = w.paneName ∧
      (o.getNameOk = true → o.setAutoOk = true → pane_id ≠ [] →
        w.paneName pane_id ≠ [] →
        (handle_stop_hook w o pane_id).autoRename pane_id = false)) := by
  refine ⟨fun hg => ?_, fun hr => ?_⟩
  · simp only [handle_stop_hook, hg, Bool.not_false, if_true]
    split <;> rfl
  have h2 : ∀ name, (set_pane_name w o pane_id name).2 = false :=
    fun nm => (set_pane_name_renameFail w o pane_id nm hr).1
  refine ⟨?_, ?_, fun hg hs hp hn => ?_⟩
  · simp only [handle_stop_hook, h2, Bool.false_eq_true, if_false]
    split
    · rfl
    split
    · rfl
    split
    · rfl
    exact (set_pane_name_renameFail w o pane_id _ hr).2.1
  · simp only [handle_stop_hook, h2, Bool.false_eq_true, if_false]
    split
    · rfl
    split
    · rfl
    split
    · rfl
    exact (set_pane_name_renameFail w o pane_id _ hr).2.2
  · simp only [handle_stop_hook, h2, Bool.false_eq_true, if_false]
    rw [if_neg hp]
    simp only [hg, Bool.not_true, Bool.false_eq_true, if_false]
    rw [if_neg hn]
    exact set_pane_name_renameFail_auto w o pane_id _ hr hs

/-- Witness for C6 at concrete worlds and oracles. -/
theorem C6_witness :
    handle_stop_hook w0 oGetFail pid0 = w0 ∧
    (handle_stop_hook w0 oRenameFail pid0).autoRename pid0 = false :=
  ⟨(C6_accessor_failure_frame w0 oGetFail pid0).1 rfl,
   ((C6_accessor_failure_frame w0 oRenameFail pid0).2 rfl).2.2 rfl rfl
     (by decide) (by decide)⟩

/-- C3: `restore` is idempotent: with every call succeeding, the second
of two consecutive restores changes nothing at all (same world, hence the
same observable pane name, no rename, no toggle change) and returns
`False` rather than raising; the record present before the first call is
deleted by it (and only it). -/
theorem C3_restore_idempotent (w : World) (pane_id : PyStr) :
    (restore_pane_name (restore_pane_name w happyOracle pane_id).1 happyOracle pane_id).1 =
      (restore_pane_name w happyOracle pane_id).1 ∧
    (restore_pane_name (restore_pane_name w happyOracle pane_id).1 happyOracle pane_id).2 =
      false ∧
    (∀ st, load_pane_state w pane_id = some st →
      load_pane_state (restore_pane_name w happyOracle pane_id).1 pane_id = none) := by
  have key : load_pane_state (restore_pane_name w happyOracle pane_id).1 pane_id = none ∨
      restore_pane_name w happyOracle pane_id = (w, false) ∧
        load_pane_state w pane_id = none := by
    cases hl : load_pane_state w pane_id with
    | none => exact Or.inr ⟨by simp [restore_pane_name, hl], rfl⟩
    | some st =>
      obtain ⟨info, hinfo⟩ : ∃ info,
          w.stateFiles.lookup (fileKey pane_id) = some info := by
        unfold load_pane_state at hl
        cases e : w.stateFiles.lookup (fileKey pane_id) with
        | none => rw [e] at hl; cases hl
        | some info => exact ⟨info, rfl⟩
      have hr1 : (restore_pane_name w happyOracle pane_id).1.stateFiles =
          removeEntry w.stateFiles (fileKey pane_id) := by
        simp only [restore_pane_name, hl, happyOracle, if_true, set_window_auto_rename,
          cleanup_pane_state]
        rw [if_pos]
        simp only [hinfo, Option.isSome_some, Bool.and_self]
      exact Or.inl (by simp [load_pane_state, hr1, lookup_removeEntry_self])
  rcases key with hload1 | ⟨hfix, hl⟩
  · have houter : restore_pane_name (restore_pane_name w happyOracle pane_id).1
        happyOracle pane_id = ((restore_pane_name w happyOracle pane_id).1, false) := by
      generalize hW : (restore_pane_name w happyOracle pane_id).1 = W at hload1
      simp only [restore_pane_name, hload1]
    exact ⟨by rw [houter], by rw [houter], fun st h => hload1⟩
  · have houter : restore_pane_name (restore_pane_name w happyOracle pane_id).1
        happyOracle pane_id = (w, false) := by rw [hfix]; exact hfix
    refine ⟨by rw [houter, hfix], by rw [houter], fun st h => ?_⟩
    rw [hl] at h
    cases h

/-- Witness for C3 at a concrete world holding a record. -/
theorem C3_witness :
    load_pane_state wD pid0 = some stD ∧
    load_pane_state (restore_pane_name wD happyOracle pid0).1 pid0 = none :=
  ⟨by decide, (C3_restore_idempotent wD pid0).2.2 stD (by decide)⟩

/-- C2 (amended): for every pane with no record whose starting displayed
name is nonempty and does not itself begin with a recognized marker
prefix (the hooks abort on falsy names and strip one marker from
already-marked names), `apply(stopped)` then `apply(notified)` yields the
displayed name `"📢 " + start` — carrying exactly one marker: it starts
with the notified marker and stripping it leaves a marker-free name — and
the stored `true_name` equals the name before either call. -/
theorem C2_stop_then_notified (w : World) (pane_id : PyStr) (hpid : pane_id ≠ [])
    (hname : w.paneName pane_id ≠ []) (hmark : hasEmoji (w.paneName pane_id) = false)
    (hfile : w.stateFiles.lookup (fileKey pane_id) = none) :
    (handle_notification_hook (handle_stop_hook w happyOracle pane_id) happyOracle
        pane_id).paneName pane_id = '📢' :: ' ' :: w.paneName pane_id ∧
    stripEmoji ((handle_notification_hook (handle_stop_hook w happyOracle pane_id)
        happyOracle pane_id).paneName pane_id) = w.paneName pane_id ∧
    hasEmoji (stripEmoji ((handle_notification_hook (handle_stop_hook w happyOracle pane_id)
        happyOracle pane_id).paneName pane_id)) = false ∧
    (load_pane_state (handle_notification_hook (handle_stop_hook w happyOracle pane_id)
        happyOracle pane_id) pane_id).map PaneState.original_name =
      some (w.paneName pane_id) := by
  have hload : load_pane_state w pane_id = none := by
    simp [load_pane_state, hfile]
  have horig : originalNameOf w pane_id = w.paneName pane_id := by
    simp [originalNameOf, hload, stripEmoji_of_hasEmoji_eq_false hmark]
  have hstop := handle_stop_hook_happy_eq w pane_id hpid hname
  set w1 := handle_stop_hook w happyOracle pane_id with hw1
  have hname1 : w1.paneName pane_id = '✅' :: ' ' :: w.paneName pane_id := by
    rw [hstop]; simp [horig]
  have hfile1 : w1.stateFiles.lookup (fileKey pane_id) =
      some ⟨w.now, .valid ⟨pane_id, w.paneName pane_id, "stop".data, w.now, false⟩⟩ := by
    rw [hstop]; simp [lookup_setEntry_self, horig]
  have hload1 : load_pane_state w1 pane_id =
      some ⟨pane_id, w.paneName pane_id, "stop".data, w.now, false⟩ := by
    simp [load_pane_state, hfile1]
  have horig1 : originalNameOf w1 pane_id = w.paneName pane_id := by
    simp [originalNameOf, hload1]
  have hnotif := handle_notification_hook_happy_eq w1 pane_id hpid
    (by rw [hname1]; simp)
  rw [hnotif]
  refine ⟨by simp [horig1], ?_, ?_, ?_⟩
  · simp [horig1, stripEmoji_speaker]
  · simp [horig1, stripEmoji_speaker, hmark]
  · simp [load_pane_state, lookup_setEntry_self, horig1]

/-- Witness for C2 (amended) at a concrete unmarked pane. -/
theorem C2_witness :
    pid0 ≠ [] ∧ hasEmoji (w0.paneName pid0) = false ∧
    (handle_notification_hook (handle_stop_hook w0 happyOracle pid0) happyOracle
        pid0).paneName pid0 = '📢' :: ' ' :: w0.paneName pid0 :=
  ⟨by decide, by decide,
   (C2_stop_then_notified w0 pid0 (by decide) (by decide) (by decide) rfl).1⟩

/-- C7 (amended): for a pane named `"build"` with no record,
`apply(stopped)` displays exactly `"✅ build"` and a subsequent `restore`
brings the displayed name back to exactly `"build"` and deletes the
record; the auto-naming toggle, however, ends at the stored snapshot
(off), which equals the pre-overlay value only when auto-naming was
already off before the overlay. -/
theorem C7_strip_then_restore (w : World) (pane_id : PyStr) (hpid : pane_id ≠ [])
    (hname : w.paneName pane_id = "build".data)
    (hfile : w.stateFiles.lookup (fileKey pane_id) = none) :
    (handle_stop_hook w happyOracle pane_id).paneName pane_id = "✅ build".data ∧
    (restore_pane_name (handle_stop_hook w happyOracle pane_id) happyOracle
        pane_id).1.paneName pane_id = "build".data ∧
    (restore_pane_name (handle_stop_hook w happyOracle pane_id) happyOracle
        pane_id).1.stateFiles.lookup (fileKey pane_id) = none ∧
    (restore_pane_name (handle_stop_hook w happyOracle pane_id) happyOracle
        pane_id).1.autoRename pane_id = false := by
  have hload : load_pane_state w pane_id = none := by
    simp [load_pane_state, hfile]
  have horig : originalNameOf w pane_id = "build".data := by
    have : stripEmoji ("build".data) = "build".data := by decide
    simp [originalNameOf, hload, hname, this]
  have hstop := handle_stop_hook_happy_eq w pane_id hpid (by rw [hname]; decide)
  set w1 := handle_stop_hook w happyOracle pane_id with hw1
  have hname1 : w1.paneName pane_id = "✅ build".data := by
    rw [hstop]; simp [horig]
  have hfile1 : w1.stateFiles.lookup (fileKey pane_id) =
      some ⟨w.now, .valid ⟨pane_id, "build".data, "stop".data, w.now, false⟩⟩ := by
    rw [hstop]; simp [lookup_setEntry_self, horig]
  have hload1 : load_pane_state w1 pane_id =
      some ⟨pane_id, "build".data, "stop".data, w.now, false⟩ := by
    simp [load_pane_state, hfile1]
  have hrest : (restore_pane_name w1 happyOracle pane_id).1 =
      cleanup_pane_state
        ((set_window_auto_rename
            {w1 with paneName := fun q => if q = pane_id then "build".data
                                          else w1.paneName q}
            pane_id true false).1) pane_id true := by
    simp only [restore_pane_name, hload1, happyOracle, if_true]
  refine ⟨hname1, ?_, ?_, ?_⟩
  · rw [hrest]
    simp only [cleanup_pane_state, set_window_auto_rename, if_true]
    split <;> simp
  · rw [hrest]
    simp only [cleanup_pane_state, set_window_auto_rename, if_true]
    rw [if_pos]
    · exact lookup_removeEntry_self _ _
    · simp only [hfile1, Option.isSome_some, Bool.and_self]
  · rw [hrest]
    simp only [cleanup_pane_state, set_window_auto_rename, if_true]
    split <;> simp

/-- Witness for C7 (amended) at a concrete world. -/
theorem C7_witness :
    w0.paneName pid0 = "build".data ∧
    (handle_stop_hook w0 happyOracle pid0).paneName pid0 = "✅ build".data ∧
    (restore_pane_name (handle_stop_hook w0 happyOracle pid0) happyOracle
        pid0).1.paneName pid0 = "build".data :=
  ⟨rfl, (C7_strip_then_restore w0 pid0 (by decide) rfl rfl).1,
   (C7_strip_then_restore w0 pid0 (by decide) rfl rfl).2.1⟩

/-- C4 (amended): only records that are also *tracked* are evicted when
dead: for every tracked pane whose id is absent from the live enumeration,
one Reconciler tick deletes both its tracker entry and its state file.  (A
state file with no tracker entry is never touched by dead-pane cleanup —
see the counterexample — only by staleness eviction.) -/
theorem C4_dead_pane_eviction (w : World) (pane_id : PyStr) (out : Option PyStr)
    (info : TrackedInfo)
    (htracked : (load_tracked_panes w).lookup pane_id = some info)
    (hdead : ((get_all_panes out).map (fun p => p.pane_id)).contains pane_id = false) :
    (load_tracked_panes (monitor_tick w out)).lookup pane_id = none ∧
    (monitor_tick w out).stateFiles.lookup (fileKey pane_id) = none := by
  have hmem : (pane_id, info) ∈ load_tracked_panes w := mem_of_lookup_eq_some htracked
  have hmemf : (pane_id, info) ∈ (load_tracked_panes w).filter
      (fun kv => !((get_all_panes out).map (fun p => p.pane_id)).contains kv.1) :=
    List.mem_filter.2 ⟨hmem, by rw [hdead]; rfl⟩
  have hdm : pane_id ∈ ((load_tracked_panes w).filter
      (fun kv => !((get_all_panes out).map (fun p => p.pane_id)).contains kv.1)).map
      (fun kv => kv.1) := List.mem_map_of_mem _ hmemf
  simp only [monitor_tick, cleanup_dead_panes]
  split
  next hD => exact absurd (hD ▸ hdm) (List.not_mem_nil _)
  next hD =>
    constructor
    · simp only [cleanup_old_states, save_tracked_panes, load_tracked_panes]
      exact lookup_filter_keyPred_eq_none
        (fun x => ((get_all_panes out).map (fun p => p.pane_id)).contains x)
        pane_id _ hdead
    · simp only [cleanup_old_states, save_tracked_panes]
      apply lookup_filter_eq_none_of_eq_none
      have hfk : ((((load_tracked_panes w).filter
          (fun kv => !((get_all_panes out).map (fun p => p.pane_id)).contains kv.1)).map
          (fun kv => kv.1)).map fileKey).contains (fileKey pane_id) = true :=
        List.elem_eq_true_of_mem (List.mem_map_of_mem fileKey hdm)
      exact lookup_filter_keyPred_eq_none
        (fun x => !((((load_tracked_panes w).filter
          (fun kv => !((get_all_panes out).map (fun p => p.pane_id)).contains kv.1)).map
          (fun kv => kv.1)).map fileKey).contains x)
        (fileKey pane_id) _ (by simp only [hfk, Bool.not_true])

/-- Witness for C4 (amended): tracked pane `"%1"` with a state file, live
enumeration naming only another pane. -/
theorem C4_witness :
    (load_tracked_panes wT).lookup pid0 = some infoD ∧
    (monitor_tick wT (some liveOut)).stateFiles.lookup (fileKey pid0) = none :=
  ⟨by decide, (C4_dead_pane_eviction wT pid0 (some liveOut) infoD (by decide)
      (by decide)).2⟩

/-- C8: a state file whose mtime (the time of its last write, which
equals the record's saved-at timestamp) is more than 3600 seconds old is
deleted by the next Reconciler tick, whatever the live enumeration says —
in particular even when the pane is still live. -/
theorem C8_staleness_eviction (w : World) (k : PyStr) (out : Option PyStr)
    (info : StateFileInfo)
    (hnodup : (w.stateFiles.map Prod.fst).Nodup)
    (hlookup : w.stateFiles.lookup k = some info)
    (hold : 3600 < w.now - info.mtime) :
    (monitor_tick w out).stateFiles.lookup k = none := by
  have hsub : ∀ x ∈ (cleanup_dead_panes w out).stateFiles, x ∈ w.stateFiles := by
    intro x hx
    simp only [cleanup_dead_panes] at hx
    split at hx
    · exact hx
    · simp only [save_tracked_panes] at hx
      exact List.mem_of_mem_filter hx
  have hnow : (cleanup_dead_panes w out).now = w.now := by
    simp only [cleanup_dead_panes]
    split
    · rfl
    · rfl
  have hkinfo : (k, info) ∈ w.stateFiles := mem_of_lookup_eq_some hlookup
  simp only [monitor_tick, cleanup_old_states]
  apply lookup_eq_none_of_forall_ne
  intro v hv
  rcases List.mem_filter.1 hv with ⟨hv1, hv2⟩
  have hvw : (k, v) ∈ w.stateFiles := hsub _ hv1
  have hveq : v = info := value_eq_of_mem_nodup_keys hnodup hvw hkinfo
  rw [hnow, hveq] at hv2
  simp only [decide_eq_true_eq, Bool.not_eq_eq_eq_not, Bool.not_true,
    decide_eq_false_iff_not] at hv2
  exact hv2 hold

/-- Witness for C8: the state file of pane `"%1"` saved at time 0,
observed at time 5000, with `"%1"` still live. -/
theorem C8_witness :
    wS.stateFiles.lookup "1".data = some ⟨0, .valid stD⟩ ∧
    3600 < wS.now - 0 ∧
    (monitor_tick wS (some "s:0.0:%1:t:1".data)).stateFiles.lookup "1".data = none :=
  ⟨by decide, by decide,
   C8_staleness_eviction wS "1".data (some "s:0.0:%1:t:1".data) ⟨0, .valid stD⟩
     (by decide) (by decide) (by decide)⟩

/-- C10: when the tmux `list-panes` command errors, `get_all_panes`
returns the empty list rather than failing, so a Reconciler tick run
during the failure sees no live pane, treats every tracked pane as dead,
and deletes every tracker entry together with its state file in that
single tick. -/
theorem C10_enumeration_failure_mass_eviction (w : World) :
    get_all_panes none = [] ∧
    load_tracked_panes (monitor_tick w none) = [] ∧
    (∀ pane_id info, (load_tracked_panes w).lookup pane_id = some info →
      (monitor_tick w none).stateFiles.lookup (fileKey pane_id) = none) := by
  refine ⟨rfl, ?_, fun pane_id info htracked => ?_⟩
  · simp only [monitor_tick, cleanup_dead_panes, get_all_panes, List.map_nil]
    split
    next hD =>
      have : load_tracked_panes w = [] := by
        have := congrArg List.length hD
        simp only [List.length_map, List.length_nil] at this
        have hfilter : (load_tracked_panes w).filter
            (fun kv => !List.contains ([] : List PyStr) kv.1) = load_tracked_panes w := by
          apply List.filter_eq_self.2
          intro a _
          rfl
        rw [hfilter] at this
        exact List.eq_nil_of_length_eq_zero this
      simp only [cleanup_old_states, load_tracked_panes]
      cases hT : w.trackerFile with
      | absent => rfl
      | corrupt => rfl
      | valid panes =>
        simp only [load_tracked_panes, hT] at this
        simp only [hT, this]
    next hD =>
      simp only [cleanup_old_states, save_tracked_panes, load_tracked_panes]
      apply List.filter_eq_nil_iff.2
      intro a _ h
      exact nomatch h
  · have hmem : (pane_id, info) ∈ load_tracked_panes w := mem_of_lookup_eq_some htracked
    have hmemf : (pane_id, info) ∈ (load_tracked_panes w).filter
        (fun kv => !((get_all_panes none).map (fun p => p.pane_id)).contains kv.1) :=
      List.mem_filter.2 ⟨hmem, rfl⟩
    have hdm : pane_id ∈ ((load_tracked_panes w).filter
        (fun kv => !((get_all_panes none).map (fun p => p.pane_id)).contains kv.1)).map
        (fun kv => kv.1) := List.mem_map_of_mem _ hmemf
    simp only [monitor_tick, cleanup_dead_panes]
    split
    next hD => exact absurd (hD ▸ hdm) (List.not_mem_nil _)
    next hD =>
      simp only [cleanup_old_states, save_tracked_panes]
      apply lookup_filter_eq_none_of_eq_none
      have hfk : ((((load_tracked_panes w).filter
          (fun kv => !((get_all_panes none).map (fun p => p.pane_id)).contains kv.1)).map
          (fun kv => kv.1)).map fileKey).contains (fileKey pane_id) = true :=
        List.elem_eq_true_of_mem (List.mem_map_of_mem fileKey hdm)
      exact lookup_filter_keyPred_eq_none
        (fun x => !((((load_tracked_panes w).filter
          (fun kv => !((get_all_panes none).map (fun p => p.pane_id)).contains kv.1)).map
          (fun kv => kv.1)).map fileKey).contains x)
        (fileKey pane_id) _ (by simp only [hfk, Bool.not_true])

/-- Witness for C10 at a concrete tracked world. -/
theorem C10_witness :
    (load_tracked_panes wT).lookup pid0 = some infoD ∧
    (monitor_tick wT none).stateFiles.lookup (fileKey pid0) = none :=
  ⟨by decide,
   (C10_enumeration_failure_mass_eviction wT).2.2 pid0 infoD (by decide)⟩

/-- The stop hook is a no-op when the pane's current name is falsy. -/
theorem handle_stop_hook_empty_name (w : World) (o : Oracle) (pane_id : PyStr)
    (hgo : o.getNameOk = true) (hname : w.paneName pane_id = []) :
    handle_stop_hook w o pane_id = w := by
  simp [handle_stop_hook, hgo, hname]

/-- C9: a State Store record that fails to parse is treated as absent:
`load_pane_state` returns `None` (after logging) rather than raising, a
`restore` on it is the same no-op returning `False` as with no record,
and an apply produces the same displayed names, toggles and readable
record as it would if the record did not exist at all; an unparsable
tracker file is likewise read as the empty dict. -/
theorem C9_corrupt_record_treated_as_absent (w : World) (pane_id : PyStr) (m : Nat)
    (hc : w.stateFiles.lookup (fileKey pane_id) = some ⟨m, .corrupt⟩) :
    load_pane_state w pane_id = none ∧
    restore_pane_name w happyOracle pane_id = (w, false) ∧
    ((handle_stop_hook w happyOracle pane_id).paneName =
        (handle_stop_hook {w with stateFiles := removeEntry w.stateFiles (fileKey pane_id)}
          happyOracle pane_id).paneName ∧
      (handle_stop_hook w happyOracle pane_id).autoRename =
        (handle_stop_hook {w with stateFiles := removeEntry w.stateFiles (fileKey pane_id)}
          happyOracle pane_id).autoRename ∧
      load_pane_state (handle_stop_hook w happyOracle pane_id) pane_id =
        load_pane_state
          (handle_stop_hook {w with stateFiles := removeEntry w.stateFiles (fileKey pane_id)}
            happyOracle pane_id) pane_id) ∧
    load_tracked_panes {w with trackerFile := .corrupt} = [] := by
  have hload : load_pane_state w pane_id = none := by
    simp [load_pane_state, hc]
  have hload' : load_pane_state
      {w with stateFiles := removeEntry w.stateFiles (fileKey pane_id)} pane_id = none := by
    simp [load_pane_state, lookup_removeEntry_self]
  refine ⟨hload, by simp [restore_pane_name, hload], ?_, rfl⟩
  by_cases hpid : pane_id = []
  · have h1 : handle_stop_hook w happyOracle pane_id = w := by
      simp [handle_stop_hook, hpid]
    have h2 : handle_stop_hook
        {w with stateFiles := removeEntry w.stateFiles (fileKey pane_id)} happyOracle
        pane_id = {w with stateFiles := removeEntry w.stateFiles (fileKey pane_id)} := by
      simp [handle_stop_hook, hpid]
    rw [h1, h2]
    exact ⟨rfl, rfl, by rw [hload, hload']⟩
  by_cases hname : w.paneName pane_id = []
  · have h1 := handle_stop_hook_empty_name w happyOracle pane_id rfl hname
    have h2 := handle_stop_hook_empty_name
      {w with stateFiles := removeEntry w.stateFiles (fileKey pane_id)} happyOracle
      pane_id rfl hname
    rw [h1, h2]
    exact ⟨rfl, rfl, by rw [hload, hload']⟩
  · have horig : originalNameOf w pane_id = stripEmoji (w.paneName pane_id) := by
      simp [originalNameOf, hload]
    have horig' : originalNameOf
        {w with stateFiles := removeEntry w.stateFiles (fileKey pane_id)} pane_id =
        stripEmoji (w.paneName pane_id) := by
      simp [originalNameOf, hload']
    have h1 := handle_stop_hook_happy_eq w pane_id hpid hname
    have h2 := handle_stop_hook_happy_eq
      {w with stateFiles := removeEntry w.stateFiles (fileKey pane_id)} pane_id hpid hname
    rw [h1, h2]
    refine ⟨by rw [horig, horig'], rfl, ?_⟩
    simp [load_pane_state, lookup_setEntry_self, horig, horig']

/-- Witness for C9 at a concrete world with a corrupt record. -/
theorem C9_witness :
    wC.stateFiles.lookup (fileKey pid0) = some ⟨0, .corrupt⟩ ∧
    load_pane_state wC pid0 = none :=
  ⟨by decide, (C9_corrupt_record_treated_as_absent wC pid0 0 (by decide)).1⟩

end TmuxClaude
